import Mathlib

/-!
# Verification of the gesture-driven animation engine (ThreeScene)

Shallow embedding of the per-tick animation state updates of
`src/components/ThreeScene.tsx`, together with theorems settling the
spec claims about them.  Machine floats are modelled by exact rationals
(for the purely arithmetic subsystems: pinch smoothing, hand lerp,
trail buffer, rotation easing) or by real numbers (where the code calls
`Math.cos` / `Math.sin`: vortex particles and memory artifacts).
-/

namespace ThreeScene

/-- A 3-component vector over ℚ, modelling a `THREE.Vector3` used by the
purely arithmetic parts of the scene (hand target, hand position, trail). -/
@[ext]
structure Vec3 where
  x : ℚ
  y : ℚ
  z : ℚ
deriving DecidableEq, Repr

/-- `a.lerp b t`: `THREE.Vector3.lerp`, componentwise `a + (b - a) * t`. -/
def Vec3.lerp (a b : Vec3) (t : ℚ) : Vec3 :=
  ⟨a.x + (b.x - a.x) * t, a.y + (b.y - a.y) * t, a.z + (b.z - a.z) * t⟩

/-- The origin vector, the initial value of `targetHandPos` and
`currentHandPos` (`new THREE.Vector3(0, 0, 0)`). -/
def Vec3.zero : Vec3 := ⟨0, 0, 0⟩

/-- Squared Euclidean distance between two vectors. -/
def distSq (a b : Vec3) : ℚ :=
  (a.x - b.x)^2 + (a.y - b.y)^2 + (a.z - b.z)^2

/-! ## Pinch smoothing (animate, step 1)

`const targetPinch = isPinchingRef.current ? 1 : 0;`
`pinchFactor.current += (targetPinch - pinchFactor.current) * 0.1;` -/

/-- One render tick of the pinch smoothing: the latched boolean pinch
signal is turned into a target of 1 or 0 and `pinchFactor` moves 10% of
the way toward it. -/
def pinchStep (pinching : Bool) (p : ℚ) : ℚ :=
  p + ((if pinching then 1 else 0) - p) * (1/10)

/-- Run the pinch smoothing over a sequence of ticks, each tick carrying
the latched `isPinchingRef` value. -/
def pinchRun (ticks : List Bool) (p : ℚ) : ℚ :=
  ticks.foldl (fun q b => pinchStep b q) p

/-! ## Hand follow lerp (animate, step 3, first line)

`currentHandPos.current.lerp(targetHandPos.current, 0.12);` -/

/-- One render tick of the hand-follow smoothing: `currentHandPos`
lerps 12% of the way toward `targetHandPos`. -/
def handStep (target cur : Vec3) : Vec3 :=
  cur.lerp target (12/100)

/-- `n` render ticks of the hand-follow smoothing with a fixed target. -/
def handIterN (target cur : Vec3) : ℕ → Vec3
  | 0 => cur
  | n + 1 => handStep target (handIterN target cur n)

/-! ## Hand trail buffer (animate, step 3, shift loop)

```
const tCount = 60;
for (let i = tCount - 1; i > 0; i--) {
  tArray[i*3]   = tArray[(i-1)*3];
  tArray[i*3+1] = tArray[(i-1)*3+1];
  tArray[i*3+2] = tArray[(i-1)*3+2];
}
tArray[0] = currentHandPos.x; tArray[1] = ...y; tArray[2] = ...z;
```
The buffer is a fixed array of `tCount` vec3 slots, modelled as a
function `Fin tCount → Vec3`. -/

/-- Number of trail slots (`const tCount = 60`). -/
def tCount : ℕ := 60

/-- One tick of the trail buffer: slot `i` (for `i ≥ 1`) receives the
previous contents of slot `i - 1`, and slot 0 receives the current
(smoothed) hand position. -/
def trailStep (cur : Vec3) (tr : Fin tCount → Vec3) : Fin tCount → Vec3 :=
  fun i =>
    if i.val = 0 then cur
    else tr ⟨i.val - 1, Nat.lt_of_le_of_lt (Nat.sub_le _ _) i.isLt⟩

/-- Feed a sequence of positions into the trail buffer, one per tick. -/
def trailFeed (ps : List Vec3) (tr : Fin tCount → Vec3) : Fin tCount → Vec3 :=
  ps.foldl (fun t p => trailStep p t) tr

/-- The all-zero trail buffer: a fresh `Float32Array` is zero-initialized. -/
def zeroTrail : Fin tCount → Vec3 := fun _ => Vec3.zero

/-! ## Scene interaction state and the per-tick render update

The mutable cross-tick state of the arithmetic subsystems:
`targetHandPos`, `currentHandPos`, `isPinchingRef`, `pinchFactor`,
`mainGroup.rotation.x/y`, and the trail buffer.  The vortex particles
and memory artifacts live in ℝ and are modelled separately below. -/

structure SceneState where
  target : Vec3
  current : Vec3
  pinching : Bool
  pinch : ℚ
  rotX : ℚ
  rotY : ℚ
  trail : Fin tCount → Vec3

/-- `updateHandInteraction(x, y, isPinching)`: maps normalized palm
coordinates into scene space, latches the pinch flag, and eases the main
group rotation toward the palm-derived targets:
```
targetHandPos.current.set((x - 0.5) * 60, (0.5 - y) * 45, 15);
isPinchingRef.current = isPinching;
const targetRX = (y - 0.5) * 0.25;
const targetRY = (x - 0.5) * 0.5;
rotation.x += (targetRX - rotation.x) * 0.04;
rotation.y += (targetRY - rotation.y) * 0.04;
``` -/
def updateHandInteraction (x y : ℚ) (isPinching : Bool) (s : SceneState) : SceneState :=
  { s with
    target := ⟨(x - 1/2) * 60, (1/2 - y) * 45, 15⟩
    pinching := isPinching
    rotX := s.rotX + ((y - 1/2) * (25/100) - s.rotX) * (4/100)
    rotY := s.rotY + ((x - 1/2) * (5/10) - s.rotY) * (4/100) }

/-- One render tick (`animate`) restricted to the arithmetic state: pinch
smoothing, hand-follow lerp, and the trail shift.  It writes neither
`targetHandPos`, nor `isPinchingRef`, nor the main group rotation (the
render loop's only rotation write is to the star, a different object). -/
def animate (s : SceneState) : SceneState :=
  let cur := handStep s.target s.current
  { s with
    pinch := pinchStep s.pinching s.pinch
    current := cur
    trail := trailStep cur s.trail }

/-- `n` consecutive render ticks with no intervening gesture frame. -/
def animateN : ℕ → SceneState → SceneState
  | 0, s => s
  | n + 1, s => animate (animateN n s)

/-- The initial scene state: both hand vectors at the origin
(`new THREE.Vector3(0, 0, 0)`), not pinching, `pinchFactor = 0`, group
rotation zero, and a zero-initialized trail buffer. -/
def initState : SceneState :=
  { target := Vec3.zero, current := Vec3.zero, pinching := false
    pinch := 0, rotX := 0, rotY := 0, trail := zeroTrail }

/-! ## Vortex particle field (animate, step 2)

```
const vCount = 4000;
// per particle i, per tick:
const r = vMeta[i*2];  const speed = vMeta[i*2+1];
const angle = time * 0.2 * speed;
const baseAngle = (i / vCount) * Math.PI * 2 + angle;
const currentR = r * (1 + pinchFactor.current * 0.3);
pos[idx]     = Math.cos(baseAngle) * currentR;
pos[idx + 2] = Math.sin(baseAngle) * currentR;
pos[idx + 1] += Math.cos(time + i) * 0.01;
vMat.opacity = 0.4 + pinchFactor.current * 0.5;
``` -/

/-- Number of vortex particles (`const vCount = 4000`). -/
def vCount : ℕ := 4000

/-- The per-particle state that persists across ticks: the base radius
and angular speed fixed at initialization (`vMeta`), and the vertical
position, which accumulates drift (the `pos[idx+1] +=` write). -/
structure VParticle where
  r : ℝ
  speed : ℝ
  y : ℝ

/-- `baseAngle = (i / vCount) * Math.PI * 2 + time * 0.2 * speed`. -/
noncomputable def vortexBaseAngle (i : ℕ) (t speed : ℝ) : ℝ :=
  ((i : ℝ) / (vCount : ℝ)) * (Real.pi * 2) + t * (2/10) * speed

/-- `currentR = r * (1 + pinchFactor * 0.3)`. -/
noncomputable def vortexCurrentR (pinch r : ℝ) : ℝ := r * (1 + pinch * (3/10))

/-- The x position written for particle `i` this tick. -/
noncomputable def vortexPosX (t pinch : ℝ) (i : ℕ) (pt : VParticle) : ℝ :=
  Real.cos (vortexBaseAngle i t pt.speed) * vortexCurrentR pinch pt.r

/-- The z position written for particle `i` this tick. -/
noncomputable def vortexPosZ (t pinch : ℝ) (i : ℕ) (pt : VParticle) : ℝ :=
  Real.sin (vortexBaseAngle i t pt.speed) * vortexCurrentR pinch pt.r

/-- The per-tick state update of one particle: only the vertical position
changes, by the accumulated drift `Math.cos(time + i) * 0.01`. -/
noncomputable def vortexTickY (t : ℝ) (i : ℕ) (pt : VParticle) : VParticle :=
  { pt with y := pt.y + Real.cos (t + (i : ℝ)) * (1/100) }

/-- One render tick over the whole field: every one of the `vCount`
particles is updated; none is created or destroyed (the state type is a
total function on `Fin vCount`). -/
noncomputable def vortexTick (t : ℝ) (st : Fin vCount → VParticle) : Fin vCount → VParticle :=
  fun i => vortexTickY t i.val (st i)

/-- Run the vortex over a sequence of tick times. -/
noncomputable def vortexRun (times : List ℝ) (st : Fin vCount → VParticle) : Fin vCount → VParticle :=
  times.foldl (fun s t => vortexTick t s) st

/-- `vMat.opacity = 0.4 + pinchFactor.current * 0.5`. -/
noncomputable def vortexOpacity (pinch : ℝ) : ℝ := 4/10 + pinch * (5/10)

/-! ## Memory artifacts (addMemory and animate, step 4)

```
// addMemory success callback:
mat.opacity = 0; borderMat.opacity = 0;
const angle = Math.random() * Math.PI * 2;
const radius = 15 + Math.random() * 8;
const height = Math.random() * 30 - 5;
group.position.set(Math.cos(angle) * radius, height, Math.sin(angle) * radius);
group.lookAt(0, height, 0);
group.userData.birth = clock.getElapsedTime();

// animate, per artifact:
const age = time - group.userData.birth;
if (age < 1.5) { mats.forEach(m => m.opacity = age / 1.5); }
group.position.y += Math.sin(time + group.position.x) * 0.015;
``` -/

/-- A memory artifact: birth time, the two material opacities (photo and
border), position, and the `lookAt` target it was oriented toward. -/
structure MemArtifact where
  birth : ℝ
  opacity : ℝ
  borderOpacity : ℝ
  posX : ℝ
  posY : ℝ
  posZ : ℝ
  lookX : ℝ
  lookY : ℝ
  lookZ : ℝ

/-- One render tick of one artifact: while `age < 1.5` both material
opacities are set to `age / 1.5` (there is no other write to them, in
particular none once `age ≥ 1.5`); the ambient bob
`position.y += Math.sin(time + position.x) * 0.015` is applied
unconditionally. -/
noncomputable def memTick (t : ℝ) (a : MemArtifact) : MemArtifact :=
  let age := t - a.birth
  { a with
    opacity := if age < 3/2 then age / (3/2) else a.opacity
    borderOpacity := if age < 3/2 then age / (3/2) else a.borderOpacity
    posY := a.posY + Real.sin (t + a.posX) * (15/1000) }

/-- One render tick over every artifact (`children.forEach`). -/
noncomputable def memTickAll (t : ℝ) (arts : List MemArtifact) : List MemArtifact :=
  arts.map (memTick t)

/-- The artifact constructed in the `addMemory` load-success callback,
parameterized by the elapsed time `now` and the three `Math.random()`
draws (each in `[0,1)`). -/
noncomputable def spawnArtifact (now r1 r2 r3 : ℝ) : MemArtifact :=
  let angle := r1 * (Real.pi * 2)
  let radius := 15 + r2 * 8
  let height := r3 * 30 - 5
  { birth := now, opacity := 0, borderOpacity := 0
    posX := Real.cos angle * radius, posY := height, posZ := Real.sin angle * radius
    lookX := 0, lookY := height, lookZ := 0 }

/-- `addMemory(url)`: the texture load either fails (`none`) — the
success callback never runs and the artifact set is untouched, no error
reaching the render loop — or succeeds (`some`), appending the newly
constructed artifact to the memories group. -/
noncomputable def addMemory (texture : Option Unit) (now r1 r2 r3 : ℝ)
    (arts : List MemArtifact) : List MemArtifact :=
  match texture with
  | none => arts
  | some _ => arts ++ [spawnArtifact now r1 r2 r3]

/-! ## Helper lemmas -/

theorem pinchRun_cons (b : Bool) (l : List Bool) (p : ℚ) :
    pinchRun (b :: l) p = pinchRun l (pinchStep b p) := rfl

theorem pinchStep_bounds (b : Bool) (p : ℚ) (h0 : 0 ≤ p) (h1 : p ≤ 1) :
    0 ≤ pinchStep b p ∧ pinchStep b p ≤ 1 := by
  cases b <;> simp [pinchStep] <;> constructor <;> linarith

theorem pinchRun_bounds (ticks : List Bool) :
    ∀ p : ℚ, 0 ≤ p → p ≤ 1 → 0 ≤ pinchRun ticks p ∧ pinchRun ticks p ≤ 1 := by
  induction ticks with
  | nil => intro p h0 h1; exact ⟨h0, h1⟩
  | cons b l ih =>
    intro p h0 h1
    have hb := pinchStep_bounds b p h0 h1
    simpa [pinchRun_cons] using ih _ hb.1 hb.2

theorem pinchRun_replicate (n : ℕ) :
    ∀ p : ℚ, pinchRun (List.replicate n true) p = 1 - (1 - p) * (9/10)^n := by
  induction n with
  | zero => intro p; simp [pinchRun]
  | succ n ih =>
    intro p
    rw [List.replicate_succ, pinchRun_cons, ih]
    simp only [pinchStep, if_pos]
    ring

theorem handIterN_closed (target cur : Vec3) (n : ℕ) :
    handIterN target cur n =
      ⟨target.x - (target.x - cur.x) * (22/25)^n,
       target.y - (target.y - cur.y) * (22/25)^n,
       target.z - (target.z - cur.z) * (22/25)^n⟩ := by
  induction n with
  | zero => ext <;> simp [handIterN]
  | succ n ih =>
    rw [handIterN, ih]
    ext <;> simp [handStep, Vec3.lerp] <;> ring

theorem distSq_handIterN (target cur : Vec3) (n : ℕ) :
    distSq (handIterN target cur n) target = ((22/25)^n)^2 * distSq cur target := by
  rw [handIterN_closed]
  simp only [distSq]
  ring

/-! ## Claims -/

/-- C3: for every tick sequence (targetPinch derived from the latched
boolean each tick) and initial `pinchFactor` in [0,1], the factor stays
in [0,1]; and under a constantly-pinching target, after `n` ticks
`pinchFactor = 1 - (1 - p₀) · 0.9ⁿ` (exactly, in the exact-arithmetic
model). -/
theorem claim_C3_pinch_invariant_and_closed_form (ticks : List Bool) (p0 : ℚ)
    (h0 : 0 ≤ p0) (h1 : p0 ≤ 1) :
    (0 ≤ pinchRun ticks p0 ∧ pinchRun ticks p0 ≤ 1) ∧
    ∀ n : ℕ, pinchRun (List.replicate n true) p0 = 1 - (1 - p0) * (9/10)^n :=
  ⟨pinchRun_bounds ticks p0 h0 h1, fun n => pinchRun_replicate n p0⟩

/-- Witness for C3 at `p₀ = 1/2` and the tick sequence `[true, false]`. -/
theorem claim_C3_pinch_invariant_and_closed_form_witness :
    ((0:ℚ) ≤ 1/2 ∧ (1/2:ℚ) ≤ 1) ∧
    (0 ≤ pinchRun [true, false] (1/2) ∧ pinchRun [true, false] (1/2) ≤ 1) ∧
    pinchRun (List.replicate 2 true) (1/2) = 1 - (1 - 1/2) * (9/10)^2 :=
  ⟨⟨by norm_num, by norm_num⟩,
   (claim_C3_pinch_invariant_and_closed_form [true, false] (1/2)
      (by norm_num) (by norm_num)).1,
   (claim_C3_pinch_invariant_and_closed_form [true, false] (1/2)
      (by norm_num) (by norm_num)).2 2⟩

/-- C4 (counterexample to "within ~50 ticks"): starting from the origin
with fixed target (10,0,15), the squared distance to the target after 50
ticks is still above (10⁻³)², and it only drops below at tick 77. -/
theorem claim_C4_counterexample :
    (1/1000 : ℚ)^2 < distSq (handIterN ⟨10,0,15⟩ ⟨0,0,0⟩ 50) ⟨10,0,15⟩ ∧
    (1/1000 : ℚ)^2 < distSq (handIterN ⟨10,0,15⟩ ⟨0,0,0⟩ 76) ⟨10,0,15⟩ ∧
    distSq (handIterN ⟨10,0,15⟩ ⟨0,0,0⟩ 77) ⟨10,0,15⟩ < (1/1000 : ℚ)^2 := by
  refine ⟨?_, ?_, ?_⟩ <;> rw [distSq_handIterN] <;> norm_num [distSq]

/-- C4 (amended): each tick `currentPosition` moves 12% of the way
toward `targetPosition`; from (0,0,0) with fixed target (10,0,15) one
tick yields exactly (1.2, 0, 1.8); and `currentPosition` converges to
within 10⁻³ of the target within 77 ticks (not ~50). -/
theorem claim_C4_hand_lerp_convergence :
    (∀ target cur : Vec3, handStep target cur =
        ⟨cur.x + (target.x - cur.x) * (12/100),
         cur.y + (target.y - cur.y) * (12/100),
         cur.z + (target.z - cur.z) * (12/100)⟩) ∧
    handIterN ⟨10,0,15⟩ ⟨0,0,0⟩ 1 = ⟨12/10, 0, 18/10⟩ ∧
    ∀ n : ℕ, 77 ≤ n →
      distSq (handIterN ⟨10,0,15⟩ ⟨0,0,0⟩ n) ⟨10,0,15⟩ < (1/1000)^2 := by
  refine ⟨fun target cur => rfl,
    by ext <;> simp [handIterN, handStep, Vec3.lerp] <;> norm_num, ?_⟩
  intro n hn
  rw [distSq_handIterN]
  have h2 : (0:ℚ) ≤ (22/25)^n := by positivity
  have h1 : ((22:ℚ)/25)^n ≤ (22/25)^77 :=
    pow_le_pow_of_le_one (by norm_num) (by norm_num) hn
  have h4 : (((22:ℚ)/25)^n)^2 ≤ (((22:ℚ)/25)^77)^2 := pow_le_pow_left₀ h2 h1 2
  have h3 : distSq ⟨0,0,0⟩ ⟨10,0,15⟩ = 325 := by norm_num [distSq]
  rw [h3]
  calc (((22:ℚ)/25)^n)^2 * 325 ≤ (((22:ℚ)/25)^77)^2 * 325 := by nlinarith
    _ < (1/1000)^2 := by norm_num

/-- Witness for C4 (amended) at `n = 77`. -/
theorem claim_C4_hand_lerp_convergence_witness :
    (77:ℕ) ≤ 77 ∧
    distSq (handIterN ⟨10,0,15⟩ ⟨0,0,0⟩ 77) ⟨10,0,15⟩ < (1/1000)^2 :=
  ⟨le_refl 77, claim_C4_hand_lerp_convergence.2.2 77 (le_refl 77)⟩

theorem trailFeed_append (ps : List Vec3) (p : Vec3) (tr : Fin tCount → Vec3) :
    trailFeed (ps ++ [p]) tr = trailStep p (trailFeed ps tr) := by
  simp [trailFeed]

theorem trailFeed_get (ps : List Vec3) :
    ∀ (tr : Fin tCount → Vec3) (i : ℕ) (hi : i < ps.length) (h60 : ps.length ≤ tCount),
      trailFeed ps tr ⟨i, lt_of_lt_of_le hi h60⟩ =
        ps.get ⟨ps.length - 1 - i, by omega⟩ := by
  induction ps using List.reverseRecOn with
  | nil => intro tr i hi _; simp at hi
  | append_singleton l p ih =>
    intro tr i hi h60
    rw [trailFeed_append]
    rcases i with _ | j
    · simp only [List.get_eq_getElem]
      exact (List.getElem_concat_length l p _
        (by simp only [List.length_append, List.length_singleton]; omega) _).symm
    · have hj : j < l.length := by
        simp only [List.length_append, List.length_singleton] at hi; omega
      have h60' : l.length ≤ tCount := by
        simp only [List.length_append, List.length_singleton] at h60; omega
      have hidx : (l ++ [p]).length - 1 - (j + 1) < l.length := by
        simp only [List.length_append, List.length_singleton]; omega
      have hget : (l ++ [p]).get ⟨(l ++ [p]).length - 1 - (j + 1),
            by simp only [List.length_append, List.length_singleton]; omega⟩ =
          l.get ⟨l.length - 1 - j, by omega⟩ := by
        simp only [List.get_eq_getElem]
        rw [List.getElem_append_left hidx]
        congr 1
        simp only [List.length_append, List.length_singleton]
        omega
      exact (ih tr j hj h60').trans hget.symm

/-- C5: the trail buffer has exactly `tCount = 60` slots (its state type
is a total function on `Fin 60`); each tick slot `i` receives the
previous contents of slot `i-1` and slot 0 the current position; after
feeding any 60 positions P₀..P₅₉ in order, slot 0 holds P₅₉ and slot 59
holds P₀. -/
theorem claim_C5_trail_buffer (ps : List Vec3) (tr : Fin tCount → Vec3)
    (h : ps.length = 60) :
    (∀ (cur : Vec3) (t : Fin tCount → Vec3) (i : Fin tCount), i.val ≠ 0 →
        trailStep cur t i = t ⟨i.val - 1, Nat.lt_of_le_of_lt (Nat.sub_le _ _) i.isLt⟩) ∧
    (∀ (cur : Vec3) (t : Fin tCount → Vec3),
        trailStep cur t ⟨0, by norm_num [tCount]⟩ = cur) ∧
    tCount = 60 ∧
    trailFeed ps tr ⟨0, by norm_num [tCount]⟩ = ps.get ⟨59, by omega⟩ ∧
    trailFeed ps tr ⟨59, by norm_num [tCount]⟩ = ps.get ⟨0, by omega⟩ := by
  refine ⟨fun cur t i hne => by simp [trailStep, hne], fun cur t => rfl, rfl, ?_, ?_⟩
  · exact (trailFeed_get ps tr 0 (by omega) (by simp [tCount, h])).trans
      (congrArg ps.get (by simp only [Fin.mk.injEq]; omega))
  · exact (trailFeed_get ps tr 59 (by omega) (by simp [tCount, h])).trans
      (congrArg ps.get (by simp only [Fin.mk.injEq]; omega))

/-- Witness for C5: feeding the 60 distinct positions (k, 0, 0),
k = 0..59, into the zero trail buffer. -/
theorem claim_C5_trail_buffer_witness :
    (List.map (fun k : ℕ => (⟨(k : ℚ), 0, 0⟩ : Vec3)) (List.range 60)).length = 60 ∧
    trailFeed (List.map (fun k : ℕ => (⟨(k : ℚ), 0, 0⟩ : Vec3)) (List.range 60)) zeroTrail
        ⟨0, by norm_num [tCount]⟩ =
      (List.map (fun k : ℕ => (⟨(k : ℚ), 0, 0⟩ : Vec3)) (List.range 60)).get
        ⟨59, by rw [List.length_map, List.length_range]; norm_num⟩ :=
  ⟨by rw [List.length_map, List.length_range],
   (claim_C5_trail_buffer _ zeroTrail
      (by rw [List.length_map, List.length_range])).2.2.2.1⟩

/-- C6: `updateHandInteraction(x, y, pinching)` sets `targetHandPos` to
exactly (x·60−30, (0.5−y)·45, 15), latches the pinch flag, and applies
the two rotation easing steps — and the render tick itself never writes
the target or the rotations (they change only on such a call). -/
theorem claim_C6_updateHandInteraction (x y : ℚ) (b : Bool) (s : SceneState) :
    (updateHandInteraction x y b s).target = ⟨x * 60 - 30, (1/2 - y) * 45, 15⟩ ∧
    (updateHandInteraction x y b s).rotX
      = s.rotX + ((y - 1/2) * (25/100) - s.rotX) * (4/100) ∧
    (updateHandInteraction x y b s).rotY
      = s.rotY + ((x - 1/2) * (5/10) - s.rotY) * (4/100) ∧
    (updateHandInteraction x y b s).pinching = b ∧
    (animate s).target = s.target ∧
    (animate s).rotX = s.rotX ∧
    (animate s).rotY = s.rotY := by
  refine ⟨?_, rfl, rfl, rfl, rfl, rfl, rfl⟩
  ext <;> (simp only [updateHandInteraction]; try ring)

theorem animateN_target (s : SceneState) (n : ℕ) : (animateN n s).target = s.target := by
  induction n with
  | zero => rfl
  | succ n ih => simpa [animateN, animate] using ih

theorem animateN_current (s : SceneState) (n : ℕ) :
    (animateN n s).current = handIterN s.target s.current n := by
  induction n with
  | zero => rfl
  | succ n ih =>
    rw [animateN, handIterN]
    have hcur : (animate (animateN n s)).current
        = handStep (animateN n s).target (animateN n s).current := rfl
    rw [hcur, animateN_target, ih]

/-- C8: across any number of render ticks with no fresh gesture frame,
`targetHandPos` is never refreshed or reset, and `currentHandPos` keeps
approaching the last known target geometrically (never reverting toward
the origin): its squared distance to the target is exactly
`0.88^(2n)` times the initial one, hence non-increasing. -/
theorem claim_C8_target_retention (s : SceneState) (n : ℕ) :
    (animateN n s).target = s.target ∧
    distSq (animateN n s).current s.target
      = ((22/25)^n)^2 * distSq s.current s.target ∧
    distSq (animateN n s).current s.target ≤ distSq s.current s.target := by
  refine ⟨animateN_target s n, ?_, ?_⟩
  · rw [animateN_current, distSq_handIterN]
  · rw [animateN_current, distSq_handIterN]
    have h2 : (0:ℚ) ≤ (22/25)^n := by positivity
    have h1 : ((22:ℚ)/25)^n ≤ 1 := pow_le_one₀ (by norm_num) (by norm_num)
    have hq2 : (((22:ℚ)/25)^n)^2 ≤ 1 := by nlinarith
    have h3 : (0:ℚ) ≤ distSq s.current s.target := by
      simp only [distSq]; positivity
    nlinarith

/-- C10: before any `updateHandInteraction` call, every render tick
leaves the target, the smoothed hand position, and the whole trail
buffer exactly at the origin. -/
theorem claim_C10_initial_origin (n : ℕ) :
    (animateN n initState).target = Vec3.zero ∧
    (animateN n initState).current = Vec3.zero ∧
    (animateN n initState).trail = zeroTrail := by
  induction n with
  | zero => exact ⟨rfl, rfl, rfl⟩
  | succ n ih =>
    obtain ⟨ht, hc, htr⟩ := ih
    have hz : handStep Vec3.zero Vec3.zero = Vec3.zero := by
      ext <;> simp [handStep, Vec3.lerp, Vec3.zero]
    have htz : trailStep Vec3.zero zeroTrail = zeroTrail := by
      funext i
      simp [trailStep, zeroTrail]
    rw [animateN]
    have hcur : (animate (animateN n initState)).current
        = handStep (animateN n initState).target (animateN n initState).current := rfl
    have htrl : (animate (animateN n initState)).trail
        = trailStep (handStep (animateN n initState).target (animateN n initState).current)
            (animateN n initState).trail := rfl
    have hta : (animate (animateN n initState)).target = (animateN n initState).target := rfl
    refine ⟨hta.trans ht, ?_, ?_⟩
    · rw [hcur, ht, hc, hz]
    · rw [htrl, ht, hc, htr, hz, htz]

theorem vortexRun_cons (t : ℝ) (ts : List ℝ) (st : Fin vCount → VParticle) :
    vortexRun (t :: ts) st = vortexRun ts (vortexTick t st) := rfl

theorem vortexRun_y (i : Fin vCount) (ts : List ℝ) :
    ∀ st : Fin vCount → VParticle,
      (vortexRun ts st i).y
        = (st i).y + (ts.map (fun u => Real.cos (u + (i.val : ℝ)) * (1/100))).sum := by
  induction ts with
  | nil => intro st; simp [vortexRun]
  | cons t ts ih =>
    intro st
    rw [vortexRun_cons, ih]
    simp only [vortexTick, vortexTickY, List.map_cons, List.sum_cons]
    ring

theorem vortexRun_r (i : Fin vCount) (ts : List ℝ) :
    ∀ st : Fin vCount → VParticle, (vortexRun ts st i).r = (st i).r := by
  induction ts with
  | nil => intro st; rfl
  | cons t ts ih =>
    intro st
    rw [vortexRun_cons, ih]
    rfl

theorem vortexRun_speed (i : Fin vCount) (ts : List ℝ) :
    ∀ st : Fin vCount → VParticle, (vortexRun ts st i).speed = (st i).speed := by
  induction ts with
  | nil => intro st; rfl
  | cons t ts ih =>
    intro st
    rw [vortexRun_cons, ih]
    rfl

/-- C7: for each of the fixed 4000 particles, per tick its written
position is (cos(angle)·radius, y + cos(t+i)·0.01, sin(angle)·radius)
with angle = (i/N)·2π + t·0.2·speedᵢ and radius = rᵢ·(1+pinch·0.3); the
y coordinate accumulates over any tick sequence and is never reset; the
base radius and speed never change (no particle is created or
destroyed, the field being a total function on `Fin 4000`); and the
field-wide opacity is 0.4 + pinch·0.5. -/
theorem claim_C7_vortex (t pinch : ℝ) (st : Fin vCount → VParticle) (i : Fin vCount)
    (ts : List ℝ) :
    vCount = 4000 ∧
    vortexPosX t pinch i.val (st i)
      = Real.cos (((i.val : ℝ) / 4000) * (2 * Real.pi) + t * (2/10) * (st i).speed)
        * ((st i).r * (1 + pinch * (3/10))) ∧
    vortexPosZ t pinch i.val (st i)
      = Real.sin (((i.val : ℝ) / 4000) * (2 * Real.pi) + t * (2/10) * (st i).speed)
        * ((st i).r * (1 + pinch * (3/10))) ∧
    (vortexTick t st i).y = (st i).y + Real.cos (t + (i.val : ℝ)) * (1/100) ∧
    (vortexRun ts st i).y
      = (st i).y + (ts.map (fun u => Real.cos (u + (i.val : ℝ)) * (1/100))).sum ∧
    (vortexRun ts st i).r = (st i).r ∧
    (vortexRun ts st i).speed = (st i).speed ∧
    vortexOpacity pinch = 4/10 + pinch * (5/10) := by
  have hangle : vortexBaseAngle i.val t (st i).speed
      = ((i.val : ℝ) / 4000) * (2 * Real.pi) + t * (2/10) * (st i).speed := by
    simp only [vortexBaseAngle, vCount, Nat.cast_ofNat]
    ring
  refine ⟨rfl, ?_, ?_, rfl, vortexRun_y i ts st, vortexRun_r i ts st,
    vortexRun_speed i ts st, rfl⟩
  · rw [vortexPosX, hangle, vortexCurrentR]
  · rw [vortexPosZ, hangle, vortexCurrentR]

/-- C1 (counterexample to "once age ≥ 1.5s the opacity holds at exactly
1"): an artifact born at time 0, ticked at t = 1 and then at t = 2
(age = 2 ≥ 1.5), has opacity 2/3, not 1 — the code never snaps the
opacity to 1, it just stops writing it. -/
theorem claim_C1_counterexample :
    (3/2 : ℝ) ≤ 2 - (MemArtifact.mk 0 0 0 0 0 0 0 0 0).birth ∧
    (memTick 2 (memTick 1 (MemArtifact.mk 0 0 0 0 0 0 0 0 0))).opacity = 2/3 ∧
    (memTick 2 (memTick 1 (MemArtifact.mk 0 0 0 0 0 0 0 0 0))).opacity ≠ 1 := by
  have h1 : (memTick 1 (MemArtifact.mk 0 0 0 0 0 0 0 0 0)).opacity
      = if (1:ℝ) - 0 < 3/2 then ((1:ℝ) - 0) / (3/2) else 0 := rfl
  have hb : (memTick 1 (MemArtifact.mk 0 0 0 0 0 0 0 0 0)).birth = 0 := rfl
  have h2 : (memTick 2 (memTick 1 (MemArtifact.mk 0 0 0 0 0 0 0 0 0))).opacity
      = if (2:ℝ) - 0 < 3/2 then ((2:ℝ) - 0) / (3/2)
        else (memTick 1 (MemArtifact.mk 0 0 0 0 0 0 0 0 0)).opacity := rfl
  refine ⟨by norm_num, ?_, ?_⟩
  · rw [h2, if_neg (by norm_num), h1, if_pos (by norm_num)]
    norm_num
  · rw [h2, if_neg (by norm_num), h1, if_pos (by norm_num)]
    norm_num

/-- C1 (amended): per tick, while age < 1.5 the opacity is set to
age/1.5 (so 0 at age 0, 2/3 ≈ 0.667 at age 1); once age ≥ 1.5 the
opacity is left unchanged — it holds at whatever value the last fading
tick wrote (close to, but not necessarily exactly, 1) — and it is
non-decreasing given the invariant that the stored opacity never
exceeds age/1.5. -/
theorem claim_C1_amended_fade (t : ℝ) (a : MemArtifact) :
    (t - a.birth < 3/2 → (memTick t a).opacity = (t - a.birth) / (3/2)) ∧
    (3/2 ≤ t - a.birth → (memTick t a).opacity = a.opacity) ∧
    ((a.opacity ≤ (t - a.birth) / (3/2) ∨ 3/2 ≤ t - a.birth) →
        a.opacity ≤ (memTick t a).opacity) ∧
    (t - a.birth = 0 → (memTick t a).opacity = 0) ∧
    (t - a.birth = 1 → (memTick t a).opacity = 2/3) := by
  have hproj : (memTick t a).opacity
      = if t - a.birth < 3/2 then (t - a.birth) / (3/2) else a.opacity := rfl
  refine ⟨?_, ?_, ?_, ?_, ?_⟩
  · intro h; rw [hproj, if_pos h]
  · intro h; rw [hproj, if_neg (not_lt.mpr h)]
  · intro h
    rw [hproj]
    by_cases hc : t - a.birth < 3/2
    · rw [if_pos hc]
      rcases h with h | h
      · exact h
      · linarith
    · rw [if_neg hc]
  · intro h; rw [hproj, if_pos (by rw [h]; norm_num), h]; norm_num
  · intro h; rw [hproj, if_pos (by rw [h]; norm_num), h]; norm_num

/-- Witness for C1 (amended): a tick at age 1 of an artifact born at 0. -/
theorem claim_C1_amended_fade_witness :
    (1:ℝ) - (MemArtifact.mk 0 0 0 0 0 0 0 0 0).birth < 3/2 ∧
    (memTick 1 (MemArtifact.mk 0 0 0 0 0 0 0 0 0)).opacity
      = ((1:ℝ) - (MemArtifact.mk 0 0 0 0 0 0 0 0 0).birth) / (3/2) := by
  have hb : (1:ℝ) - (MemArtifact.mk 0 0 0 0 0 0 0 0 0).birth < 3/2 := by
    show (1:ℝ) - 0 < 3/2
    norm_num
  exact ⟨hb, (claim_C1_amended_fade 1 _).1 hb⟩

/-- C2 (counterexample to "position is left unchanged while fading"):
an artifact with posX = π/2, born at 0 and ticked at t = 0 (age 0, still
fading), has its y position changed by sin(π/2)·0.015 = 0.015. -/
theorem claim_C2_counterexample :
    (0:ℝ) - (MemArtifact.mk 0 0 0 (Real.pi/2) 0 0 0 0 0).birth < 3/2 ∧
    (memTick 0 (MemArtifact.mk 0 0 0 (Real.pi/2) 0 0 0 0 0)).posY
      ≠ (MemArtifact.mk 0 0 0 (Real.pi/2) 0 0 0 0 0).posY := by
  constructor
  · show (0:ℝ) - 0 < 3/2
    norm_num
  · have hy : (memTick 0 (MemArtifact.mk 0 0 0 (Real.pi/2) 0 0 0 0 0)).posY
        = 0 + Real.sin (0 + Real.pi/2) * (15/1000) := rfl
    have hp : (MemArtifact.mk (0:ℝ) 0 0 (Real.pi/2) 0 0 0 0 0).posY = 0 := rfl
    rw [hy, hp, zero_add, zero_add, Real.sin_pi_div_two]
    norm_num

/-- C2 (amended): the ambient bob
`position.y += sin(t + position.x)·0.015` is applied on every tick
regardless of the artifact's age — also while it is still fading in —
and x, z and the birth time are unchanged by the per-tick update. -/
theorem claim_C2_amended_bob (t : ℝ) (a : MemArtifact) :
    (memTick t a).posY = a.posY + Real.sin (t + a.posX) * (15/1000) ∧
    (memTick t a).posX = a.posX ∧
    (memTick t a).posZ = a.posZ ∧
    (memTick t a).birth = a.birth :=
  ⟨rfl, rfl, rfl, rfl⟩

/-- C9: a failed image load leaves the artifact list unchanged (and the
total model surfaces no error); a successful load appends exactly one
artifact, created with opacity 0 on both materials, birth time equal to
the elapsed time at load completion, distance from the vertical axis
equal to a radius in [15,23], height in [-5,25], and oriented
(`lookAt`) toward the point (0, height, 0) on the scene's central
axis. -/
theorem claim_C9_addMemory (now r1 r2 r3 : ℝ) (arts : List MemArtifact)
    (h2 : 0 ≤ r2 ∧ r2 < 1) (h3 : 0 ≤ r3 ∧ r3 < 1) :
    addMemory none now r1 r2 r3 arts = arts ∧
    addMemory (some ()) now r1 r2 r3 arts = arts ++ [spawnArtifact now r1 r2 r3] ∧
    (spawnArtifact now r1 r2 r3).opacity = 0 ∧
    (spawnArtifact now r1 r2 r3).borderOpacity = 0 ∧
    (spawnArtifact now r1 r2 r3).birth = now ∧
    (spawnArtifact now r1 r2 r3).posX ^ 2 + (spawnArtifact now r1 r2 r3).posZ ^ 2
      = (15 + r2 * 8) ^ 2 ∧
    15 ≤ 15 + r2 * 8 ∧ 15 + r2 * 8 ≤ 23 ∧
    -5 ≤ (spawnArtifact now r1 r2 r3).posY ∧ (spawnArtifact now r1 r2 r3).posY ≤ 25 ∧
    (spawnArtifact now r1 r2 r3).lookX = 0 ∧ (spawnArtifact now r1 r2 r3).lookZ = 0 ∧
    (spawnArtifact now r1 r2 r3).lookY = (spawnArtifact now r1 r2 r3).posY := by
  obtain ⟨h2a, h2b⟩ := h2
  obtain ⟨h3a, h3b⟩ := h3
  refine ⟨rfl, rfl, rfl, rfl, rfl, ?_, by nlinarith, by nlinarith, ?_, ?_, rfl, rfl, rfl⟩
  · show (Real.cos (r1 * (Real.pi * 2)) * (15 + r2 * 8)) ^ 2
        + (Real.sin (r1 * (Real.pi * 2)) * (15 + r2 * 8)) ^ 2 = (15 + r2 * 8) ^ 2
    calc (Real.cos (r1 * (Real.pi * 2)) * (15 + r2 * 8)) ^ 2
          + (Real.sin (r1 * (Real.pi * 2)) * (15 + r2 * 8)) ^ 2
        = (Real.sin (r1 * (Real.pi * 2)) ^ 2 + Real.cos (r1 * (Real.pi * 2)) ^ 2)
            * (15 + r2 * 8) ^ 2 := by ring
      _ = 1 * (15 + r2 * 8) ^ 2 := by rw [Real.sin_sq_add_cos_sq]
      _ = (15 + r2 * 8) ^ 2 := one_mul _
  · show -5 ≤ r3 * 30 - 5
    nlinarith
  · show r3 * 30 - 5 ≤ 25
    nlinarith

/-- Witness for C9: a failed load at elapsed time 0 with an empty
artifact list. -/
theorem claim_C9_addMemory_witness :
    ((0:ℝ) ≤ 0 ∧ (0:ℝ) < 1) ∧ addMemory none 0 0 0 0 [] = [] :=
  ⟨⟨le_refl 0, by norm_num⟩,
   (claim_C9_addMemory 0 0 0 0 [] ⟨le_refl 0, by norm_num⟩
      ⟨le_refl 0, by norm_num⟩).1⟩

end ThreeScene
